import Mathlib

set_option autoImplicit false

/-!
Shallow embedding of `src/core/AmSipSubscription.cpp` (SEMS SIP
subscription core): the per-subscription finite state machine
(`SingleSubscription`) and the per-dialog subscription set
(`AmSipSubscription`).  Stateful C++ methods become pure functions from the
relevant state to a result record that carries the new state together with
the externally visible effects (dialog replies, usage-counter calls, timer
arming/cancelling, event-queue posts).  Message parsing is outside the core
(the SIP layer provides parsed request/reply structures), so requests and
replies carry the header strings the core reads via `getHeader`.
-/

/-- Enum `SingleSubscription::SubscriptionState` of the source. -/
inductive SubscriptionState
  | SubState_init
  | SubState_notify_wait
  | SubState_pending
  | SubState_active
  | SubState_terminated
deriving DecidableEq, Repr, Fintype

/-- Enum `SingleSubscription::Role` of the source. -/
inductive Role
  | Subscriber
  | Notifier
deriving DecidableEq, Repr, Fintype

/-- SIP request methods the core distinguishes; `OTHER` stands for any
method other than SUBSCRIBE, NOTIFY and REFER. -/
inductive Method
  | SUBSCRIBE
  | NOTIFY
  | REFER
  | OTHER
deriving DecidableEq, Repr, Fintype

/-- Enum `SingleSubscription::SubscriptionTimerId` of the source. -/
inductive SubscriptionTimerId
  | RFC6665_TIMER_N
  | SUBSCRIPTION_EXPIRE
deriving DecidableEq, Repr, Fintype

/-- Modelled from the spec: `strip_header_params` (helper of the repository
outside `src/`) keeps the header-value token before the first `;`,
stripping all parameters. -/
def strip_header_params (s : String) : String :=
  String.mk (s.data.takeWhile (fun c => c != ';'))

/-- Splits a character list at each `;`.  Helper for `get_header_param`. -/
def splitOnSemi : List Char → List (List Char)
  | [] => [[]]
  | c :: cs =>
    let r := splitOnSemi cs
    if c = ';' then [] :: r
    else
      match r with
      | [] => [[c]]
      | h :: t => (c :: h) :: t

/-- Modelled from the spec: `get_header_param` (helper of the repository
outside `src/`) returns the value of the named parameter of a header value,
`""` when the parameter is absent. -/
def get_header_param (hdr : String) (p : String) : String :=
  let parts := (splitOnSemi hdr.data).drop 1
  match parts.findSome? (fun part =>
      if part.takeWhile (fun c => c != '=') = p.data then
        some ((part.dropWhile (fun c => c != '=')).drop 1)
      else none) with
  | some v => String.mk v
  | none => ""

/-- Modelled from the spec: `str2int` (helper of the repository outside
`src/`) parses a decimal integer; header values are decimal seconds.
Returns `none` on an empty or non-digit string. -/
def str2int (s : String) : Option Nat :=
  if !s.data.isEmpty && s.data.all (fun c => c.isDigit) then
    some (s.data.foldl (fun a c => a * 10 + (c.toNat - 48)) 0)
  else none

/-- `int2str` of the repository: decimal rendering of a number. -/
def int2str (n : Nat) : String := toString n

/-- Parsed SIP request restricted to the fields the core reads:
`event_hdr` is `getHeader(hdrs, "Event", true)` and `subs_state_hdr` is
`getHeader(hdrs, "Subscription-State", true)`; both are `""` when the
header is absent. -/
structure AmSipRequest where
  method : Method
  cseq : Nat
  event_hdr : String
  subs_state_hdr : String
deriving DecidableEq, Repr

/-- Parsed SIP reply restricted to the fields the core reads:
`expires_hdr` is `getHeader(hdrs, "Expires", true)`. -/
structure AmSipReply where
  code : Nat
  cseq_method : Method
  expires_hdr : String
  to_tag : String
  route : String
deriving DecidableEq, Repr

/-- State of one `SingleSubscription`: its identifiers plus the mutable
`sub_state` and `pending_subscribe`.  The timers and the dialog are
external collaborators; their manipulation is recorded in the result
records of the operations below. -/
structure SingleSubscription where
  role : Role
  event : String
  id : String
  sub_state : SubscriptionState
  pending_subscribe : Int
deriving DecidableEq, Repr

/-- `SingleSubscription::setState`: the termination funnel.  Returns the
new `sub_state` together with the number of `dlg()->decUsages()` calls
performed (0 or 1). -/
def setState (sub_state : SubscriptionState) (st : SubscriptionState) :
    SubscriptionState × Nat :=
  if sub_state = .SubState_terminated then (sub_state, 0)
  else if st = .SubState_terminated then (.SubState_terminated, 1)
  else (st, 0)

/-- `SingleSubscription::terminate`: `setState(SubState_terminated)`. -/
def terminate (sub_state : SubscriptionState) : SubscriptionState × Nat :=
  setState sub_state .SubState_terminated

/-- `SingleSubscription::terminated`. -/
def terminated (sub_state : SubscriptionState) : Bool :=
  sub_state == .SubState_terminated

/-- `SingleSubscription::requestFSM`: on SUBSCRIBE or REFER, move Init to
NotifyWait under the state lock and arm Timer N.  Returns the new
`sub_state` and whether Timer N was armed. -/
def requestFSM (sub_state : SubscriptionState) (m : Method) :
    SubscriptionState × Bool :=
  if m = .SUBSCRIBE ∨ m = .REFER then
    ((if sub_state = .SubState_init then
        (setState sub_state .SubState_notify_wait).1
      else sub_state), true)
  else (sub_state, false)

/-- Result of `SingleSubscription::onRequestIn`: the return value, the new
mutable state, the `Retry-After` value of the 500 reply when one was sent,
and whether Timer N was armed. -/
structure OnRequestInResult where
  accepted : Bool
  sub_state : SubscriptionState
  pending_subscribe : Int
  reply_500_retry_after : Option Nat
  timer_n_set : Bool
deriving DecidableEq, Repr

/-- `SingleSubscription::onRequestIn` (UAS).  `rand` is the value returned
by `get_random()`. -/
def SingleSubscription.onRequestIn (s : SingleSubscription)
    (req : AmSipRequest) (rand : Nat) : OnRequestInResult :=
  if req.method = .SUBSCRIBE ∨ req.method = .REFER then
    if s.pending_subscribe ≠ 0 then
      { accepted := false, sub_state := s.sub_state,
        pending_subscribe := s.pending_subscribe,
        reply_500_retry_after := some (rand % 10), timer_n_set := false }
    else
      let fsm := requestFSM s.sub_state req.method
      { accepted := true, sub_state := fsm.1,
        pending_subscribe := s.pending_subscribe + 1,
        reply_500_retry_after := none, timer_n_set := fsm.2 }
  else
    let fsm := requestFSM s.sub_state req.method
    { accepted := true, sub_state := fsm.1,
      pending_subscribe := s.pending_subscribe,
      reply_500_retry_after := none, timer_n_set := fsm.2 }

/-- Result of `SingleSubscription::onRequestSent`. -/
structure OnRequestSentResult where
  sub_state : SubscriptionState
  pending_subscribe : Int
  timer_n_set : Bool
deriving DecidableEq, Repr

/-- `SingleSubscription::onRequestSent` (UAC). -/
def SingleSubscription.onRequestSent (s : SingleSubscription)
    (req : AmSipRequest) : OnRequestSentResult :=
  let p :=
    if req.method = .SUBSCRIBE ∨ req.method = .REFER then
      s.pending_subscribe + 1
    else s.pending_subscribe
  let fsm := requestFSM s.sub_state req.method
  { sub_state := fsm.1, pending_subscribe := p, timer_n_set := fsm.2 }

/-- Result of `SingleSubscription::onTimer`. -/
structure OnTimerResult where
  sub_state : SubscriptionState
  decUsages : Nat
  posted_null_event : Bool
deriving DecidableEq, Repr

/-- `SingleSubscription::onTimer`: on either timer, terminate under the
state lock, then post a null event to the event queue when one is
attached (`has_ev_q` abstracts `subs->ev_q != NULL`). -/
def SingleSubscription.onTimer (s : SingleSubscription)
    (timer_id : SubscriptionTimerId) (has_ev_q : Bool) : OnTimerResult :=
  match timer_id with
  | .RFC6665_TIMER_N =>
    let t := terminate s.sub_state
    { sub_state := t.1, decUsages := t.2, posted_null_event := has_ev_q }
  | .SUBSCRIPTION_EXPIRE =>
    let t := terminate s.sub_state
    { sub_state := t.1, decUsages := t.2, posted_null_event := has_ev_q }

/-- Result of `SingleSubscription::replyFSM`: the new mutable state and the
effects on the dialog and the timer service. -/
structure ReplyFsmResult where
  sub_state : SubscriptionState
  pending_subscribe : Int
  decUsages : Nat
  timer_n_removed : Bool
  timer_expires_set : Option Nat
  updated_remote_tag : Bool
deriving DecidableEq, Repr

/-- `SingleSubscription::replyFSM`.  `remote_tag_empty` abstracts
`dlg()->remote_tag.empty()`. -/
def SingleSubscription.replyFSM (s : SingleSubscription)
    (req : AmSipRequest) (reply : AmSipReply) (remote_tag_empty : Bool) :
    ReplyFsmResult :=
  let base : ReplyFsmResult :=
    { sub_state := s.sub_state, pending_subscribe := s.pending_subscribe,
      decUsages := 0, timer_n_removed := false, timer_expires_set := none,
      updated_remote_tag := false }
  if reply.code < 200 then base
  else if req.method = .SUBSCRIBE ∨ req.method = .REFER then
    let r1 :=
      if 300 ≤ reply.code then
        if s.sub_state = .SubState_notify_wait then
          let t := terminate s.sub_state
          { base with sub_state := t.1, decUsages := t.2 }
        else if reply.code = 405 ∨ reply.code = 489 ∨ reply.code = 481 ∨
                reply.code = 501 then
          let t := terminate s.sub_state
          { base with sub_state := t.1, decUsages := t.2 }
        else base
      else
        let b1 :=
          if remote_tag_empty then { base with updated_remote_tag := true }
          else base
        let expires_txt := strip_header_params reply.expires_hdr
        match (if expires_txt = "" then none else str2int expires_txt) with
        | some sub_expires =>
          if sub_expires ≠ 0 then
            { b1 with timer_expires_set := some sub_expires }
          else b1
        | none =>
          if reply.cseq_method = .SUBSCRIBE then
            let t := terminate s.sub_state
            { b1 with sub_state := t.1, decUsages := t.2 }
          else b1
    { r1 with pending_subscribe := r1.pending_subscribe - 1 }
  else if reply.cseq_method = .NOTIFY then
    if 300 ≤ reply.code then
      if reply.code = 405 ∨ reply.code = 481 ∨ reply.code = 489 ∨
         reply.code = 501 then
        let t := terminate s.sub_state
        { base with sub_state := t.1, decUsages := t.2 }
      else base
    else
      let sub_state_txt := req.subs_state_hdr
      let expires_txt := get_header_param sub_state_txt "expires"
      let notify_expire :=
        if expires_txt = "" then 0 else (str2int expires_txt).getD 0
      let tok := strip_header_params sub_state_txt
      if notify_expire ≠ 0 ∧ tok = "active" then
        let t := setState s.sub_state .SubState_active
        { base with
          sub_state := t.1, decUsages := t.2,
          timer_n_removed := true, timer_expires_set := some notify_expire }
      else if notify_expire ≠ 0 ∧ tok = "pending" then
        let t := setState s.sub_state .SubState_pending
        { base with
          sub_state := t.1, decUsages := t.2,
          timer_n_removed := true, timer_expires_set := some notify_expire }
      else
        let t := terminate s.sub_state
        { base with sub_state := t.1, decUsages := t.2 }
  else base

/-- Per-dialog subscription set `AmSipSubscription`: the dialog's remote
tag, the owned subscriptions in insertion order, and the CSeq maps
(CSeq mapped to the index of the subscription at recording time). -/
structure AmSipSubscription where
  remote_tag : String
  subs : List SingleSubscription
  uas_cseq_map : List (Nat × Nat)
  uac_cseq_map : List (Nat × Nat)
deriving DecidableEq, Repr

/-- Effects of a subscription-set operation on the enclosing dialog:
status codes of the replies sent (in order) and usage-counter calls. -/
structure DialogEffects where
  replies : List Nat
  incUsages : Nat
  decUsages : Nat
deriving DecidableEq, Repr

/-- No dialog effect. -/
def noEffects : DialogEffects :=
  { replies := [], incUsages := 0, decUsages := 0 }

/-- `SingleSubscription::makeSubscription`: build a subscription from the
request; `none` when the method can create no subscription (neither
SUBSCRIBE nor REFER). -/
def makeSubscription (req : AmSipRequest) (uac : Bool) :
    Option SingleSubscription :=
  let role := if uac then Role.Subscriber else Role.Notifier
  if req.method = .SUBSCRIBE then
    some { role := role, event := strip_header_params req.event_hdr,
           id := get_header_param req.event_hdr ("id"),
           sub_state := .SubState_init, pending_subscribe := 0 }
  else if req.method = .REFER then
    some { role := role, event := "refer", id := int2str req.cseq,
           sub_state := .SubState_init, pending_subscribe := 0 }
  else none

/-- `AmSipSubscription::createSubscription`: on failure reply 501,
otherwise `incUsages` and append.  Returns the iterator (index into
`subs`) of the new subscription, the new set and the dialog effects. -/
def AmSipSubscription.createSubscription (ss : AmSipSubscription)
    (req : AmSipRequest) (uac : Bool) :
    Option Nat × AmSipSubscription × DialogEffects :=
  match makeSubscription req uac with
  | none => (none, ss, { noEffects with replies := [501] })
  | some sub =>
    (some ss.subs.length, { ss with subs := ss.subs ++ [sub] },
     { noEffects with incUsages := 1 })

/-- `AmSipSubscription::matchSubscription`: find the subscription an
inbound (UAS) or outbound (UAC) request belongs to, creating one on the
paths the source creates one; a matched terminated subscription is deleted
first.  Returns the iterator (index), the new set and the effects. -/
def AmSipSubscription.matchSubscription (ss : AmSipSubscription)
    (req : AmSipRequest) (uac : Bool) :
    Option Nat × AmSipSubscription × DialogEffects :=
  if ss.remote_tag = "" ∨ req.method = .REFER ∨ ss.subs = [] then
    ss.createSubscription req uac
  else
    let roleOpt : Option Role :=
      if req.method = .SUBSCRIBE then
        some (if uac then .Subscriber else .Notifier)
      else if req.method = .NOTIFY then
        some (if uac then .Notifier else .Subscriber)
      else none
    match roleOpt with
    | none => (none, ss, noEffects)
    | some role =>
      let id := get_header_param req.event_hdr ("id")
      let event := strip_header_params req.event_hdr
      let no_id := id = "" ∧ event = "refer"
      match ss.subs.findIdx? (fun sub =>
          decide (sub.role = role ∧ sub.event = event ∧
                  (no_id ∨ sub.id = id))) with
      | some i =>
        match ss.subs.get? i with
        | some sub =>
          if sub.sub_state = .SubState_terminated then
            let ss' := { ss with subs := ss.subs.eraseIdx i }
            if req.method = .SUBSCRIBE then ss'.createSubscription req uac
            else (none, ss', noEffects)
          else (some i, ss, noEffects)
        | none => (none, ss, noEffects)
      | none =>
        if req.method = .SUBSCRIBE then ss.createSubscription req uac
        else (none, ss, noEffects)

/-- `AmSipSubscription::onRequestIn` (UAS side): match (possibly creating),
reply 481 when matching yields no usable subscription, otherwise record
the CSeq in `uas_cseq_map` and forward to
`SingleSubscription::onRequestIn`.  Returns the boolean result, the new
set and the dialog effects. -/
def AmSipSubscription.onRequestIn (ss : AmSipSubscription)
    (req : AmSipRequest) (rand : Nat) :
    Bool × AmSipSubscription × DialogEffects :=
  let m := ss.matchSubscription req false
  let ss1 := m.2.1
  let eff1 := m.2.2
  match m.1 with
  | none => (false, ss1, { eff1 with replies := eff1.replies ++ [481] })
  | some i =>
    match ss1.subs.get? i with
    | none => (false, ss1, { eff1 with replies := eff1.replies ++ [481] })
    | some sub =>
      if sub.sub_state = .SubState_terminated then
        (false, ss1, { eff1 with replies := eff1.replies ++ [481] })
      else
        let ss2 :=
          { ss1 with uas_cseq_map := (req.cseq, i) :: ss1.uas_cseq_map }
        let r := sub.onRequestIn req rand
        let sub' :=
          { sub with sub_state := r.sub_state,
                     pending_subscribe := r.pending_subscribe }
        let ss3 := { ss2 with subs := ss2.subs.set i sub' }
        (r.accepted, ss3,
         { eff1 with replies := eff1.replies ++
             (match r.reply_500_retry_after with
              | some _ => [500]
              | none => []) })

/-- The 481 guard of `AmSipSubscription::onRequestIn`: matching yielded no
subscription or a terminated one. -/
def AmSipSubscription.uasMatchFailed (ss : AmSipSubscription)
    (req : AmSipRequest) : Bool :=
  let m := ss.matchSubscription req false
  match m.1 with
  | none => true
  | some i =>
    match m.2.1.subs.get? i with
    | none => true
    | some sub => sub.sub_state == .SubState_terminated

/-- Key membership in a CSeq map. -/
def keyMem (k : Nat) (m : List (Nat × Nat)) : Bool :=
  m.any (fun e => e.1 == k)

/-- The `notify_expire` value `replyFSM` reads from the Subscription-State
header of the NOTIFY request: the `expires` parameter parsed as a decimal
integer, 0 when absent or unparseable. -/
def notifyExpire (req : AmSipRequest) : Nat :=
  let expires_txt := get_header_param req.subs_state_hdr ("expires")
  if expires_txt = "" then 0 else (str2int expires_txt).getD 0

/-- The Subscription-State token `replyFSM` reads from the NOTIFY request:
the header value with parameters stripped. -/
def notifyToken (req : AmSipRequest) : String :=
  strip_header_params req.subs_state_hdr

/-- The `sub_expires` value `replyFSM` reads from a 2xx reply's Expires
header: `none` when the header is absent (empty) or unparseable. -/
def replyExpires (reply : AmSipReply) : Option Nat :=
  let expires_txt := strip_header_params reply.expires_hdr
  if expires_txt = "" then none else str2int expires_txt

/-- C1: `setState` is the single funnel for termination: a Terminated
subscription never changes state and never decrements again; entering
Terminated from any other state decrements the dialog usage counter
exactly once; any other update changes the state with no usage-counter
effect; and consequently two consecutive `terminate()` calls decrement
exactly once overall (never on the second call). -/
theorem C1_setState_funnel (s st : SubscriptionState) :
    ((setState s st).1 =
      (if s = .SubState_terminated then s
       else if st = .SubState_terminated then .SubState_terminated
       else st))
    ∧ ((setState s st).2 =
      (if s ≠ .SubState_terminated ∧ st = .SubState_terminated then 1
       else 0))
    ∧ ((terminate (terminate s).1).1 = .SubState_terminated)
    ∧ ((terminate (terminate s).1).2 = 0)
    ∧ ((terminate s).2 + (terminate (terminate s).1).2 =
      (if s = .SubState_terminated then 0 else 1)) := by
  revert s st; decide

/-- C2 as stated is false: an admitted SUBSCRIBE on a subscription in state
Pending leaves the state Pending; it does not transition to NotifyWait. -/
theorem C2_cex :
    (SingleSubscription.onRequestIn
        ⟨.Notifier, "presence", "", .SubState_pending, 0⟩
        ⟨.SUBSCRIBE, 2, "presence", ""⟩ 0).sub_state =
      .SubState_pending
    ∧ SubscriptionState.SubState_pending ≠ .SubState_notify_wait := by
  decide

/-- C2 (amended): for a SingleSubscription in state Pending or Active, an
admitted SUBSCRIBE or REFER (via `onRequestIn` with no pending transaction,
or via `onRequestSent`) arms Timer N but leaves the state unchanged:
`requestFSM` moves only Init to NotifyWait, so the Pending and Active rows
of the state table stay in place on 'SUB/REFER admitted'. -/
theorem C2_amended (s : SingleSubscription) (req : AmSipRequest)
    (rand : Nat)
    (hst : s.sub_state = .SubState_pending ∨ s.sub_state = .SubState_active)
    (hm : req.method = .SUBSCRIBE ∨ req.method = .REFER)
    (hp : s.pending_subscribe = 0) :
    s.onRequestIn req rand =
      { accepted := true, sub_state := s.sub_state,
        pending_subscribe := s.pending_subscribe + 1,
        reply_500_retry_after := none, timer_n_set := true }
    ∧ s.onRequestSent req =
      { sub_state := s.sub_state,
        pending_subscribe := s.pending_subscribe + 1,
        timer_n_set := true } := by
  have hni : s.sub_state ≠ .SubState_init := by
    rcases hst with h | h <;> simp [h]
  constructor
  · simp only [SingleSubscription.onRequestIn, if_pos hm, hp]
    simp [requestFSM, hm, hni]
  · simp only [SingleSubscription.onRequestSent, if_pos hm]
    simp [requestFSM, hm, hni]

/-- C2 amended, instantiated at a concrete Active subscription receiving a
REFER. -/
theorem C2_amended_witness :
    SingleSubscription.onRequestIn
        ⟨.Notifier, "presence", "a", .SubState_active, 0⟩
        ⟨.REFER, 9, "", ""⟩ 3 =
      { accepted := true, sub_state := .SubState_active,
        pending_subscribe := 1, reply_500_retry_after := none,
        timer_n_set := true }
    ∧ SingleSubscription.onRequestSent
        ⟨.Notifier, "presence", "a", .SubState_active, 0⟩
        ⟨.REFER, 9, "", ""⟩ =
      { sub_state := .SubState_active, pending_subscribe := 1,
        timer_n_set := true } := by
  have h := C2_amended ⟨.Notifier, "presence", "a", .SubState_active, 0⟩
      ⟨.REFER, 9, "", ""⟩ 3 (Or.inr rfl) (Or.inr rfl) rfl
  exact ⟨h.1.trans (by decide), h.2.trans (by decide)⟩

/-- C10: when Timer N or the Expires timer fires on a subscription that is
already Terminated, `onTimer` leaves the state and the usage counter
untouched but still posts a null event to the event queue exactly when one
is attached: the wake is unconditional on the prior state. -/
theorem C10_timer_terminated (s : SingleSubscription)
    (tid : SubscriptionTimerId) (q : Bool)
    (ht : s.sub_state = .SubState_terminated) :
    s.onTimer tid q =
      { sub_state := .SubState_terminated, decUsages := 0,
        posted_null_event := q } := by
  cases tid <;>
    simp [SingleSubscription.onTimer, terminate, setState, ht]

/-- C10, instantiated at a concrete terminated subscription with an event
queue attached. -/
theorem C10_timer_terminated_witness :
    SingleSubscription.onTimer
        ⟨.Subscriber, "presence", "", .SubState_terminated, 0⟩
        .RFC6665_TIMER_N true =
      { sub_state := .SubState_terminated, decUsages := 0,
        posted_null_event := true } :=
  C10_timer_terminated
    ⟨.Subscriber, "presence", "", .SubState_terminated, 0⟩
    .RFC6665_TIMER_N true rfl

/-- C6: an inbound SUBSCRIBE or REFER on a SingleSubscription with a
pending SUBSCRIBE/REFER transaction is refused: a 500 reply carrying a
Retry-After value of `get_random() % 10` (an integer in [0,9]) is sent
through the dialog, the function returns false, and neither the FSM state
nor `pending_subscribe` changes (and Timer N is not armed). -/
theorem C6_overlap_500 (s : SingleSubscription) (req : AmSipRequest)
    (rand : Nat)
    (hm : req.method = .SUBSCRIBE ∨ req.method = .REFER)
    (hp : 0 < s.pending_subscribe) :
    s.onRequestIn req rand =
      { accepted := false, sub_state := s.sub_state,
        pending_subscribe := s.pending_subscribe,
        reply_500_retry_after := some (rand % 10), timer_n_set := false }
    ∧ rand % 10 ≤ 9 := by
  have hne : s.pending_subscribe ≠ 0 := by omega
  constructor
  · simp [SingleSubscription.onRequestIn, hm, hne]
  · omega

/-- C6, instantiated at a concrete overlapping SUBSCRIBE with
`get_random()` returning 17. -/
theorem C6_overlap_500_witness :
    SingleSubscription.onRequestIn
        ⟨.Notifier, "presence", "", .SubState_active, 1⟩
        ⟨.SUBSCRIBE, 4, "presence", ""⟩ 17 =
      { accepted := false, sub_state := .SubState_active,
        pending_subscribe := 1, reply_500_retry_after := some 7,
        timer_n_set := false }
    ∧ (17 : Nat) % 10 ≤ 9 := by
  have h := C6_overlap_500 ⟨.Notifier, "presence", "", .SubState_active, 1⟩
      ⟨.SUBSCRIBE, 4, "presence", ""⟩ 17 (Or.inl rfl) (by decide)
  exact ⟨h.1.trans (by decide), h.2⟩

/-- C3 as stated is false: a 2xx reply to a NOTIFY whose
Subscription-State is `active;expires=60`, processed on a subscription
that is already Terminated, still cancels Timer N and arms
`timer_expires` for 60 seconds even though no non-terminal transition
occurred (the state stays Terminated). -/
theorem C3_cex :
    (SingleSubscription.replyFSM
        ⟨.Subscriber, "presence", "", .SubState_terminated, 0⟩
        ⟨.NOTIFY, 3, "", "active;expires=60"⟩
        ⟨200, .NOTIFY, "", "", ""⟩ false) =
      { sub_state := .SubState_terminated, pending_subscribe := 0,
        decUsages := 0, timer_n_removed := true,
        timer_expires_set := some 60, updated_remote_tag := false } := by
  decide

/-- C3 (amended): for every 2xx final reply to a NOTIFY transaction,
`replyFSM` inspects the Subscription-State header of the originating
NOTIFY request: with `notify_expire > 0` and token "active" it applies
`setState(Active)`, with `notify_expire > 0` and token "pending" it
applies `setState(Pending)`, and in every other case it terminates; and
Timer N is cancelled and `timer_expires` is (re)armed to `notify_expire`
seconds exactly when the "active"/"pending" branch was taken — regardless
of the prior state, so in particular also when the subscription was
already Terminated (the state then stays Terminated via the `setState`
funnel, but the timers are still manipulated). -/
theorem C3_amended (s : SingleSubscription) (req : AmSipRequest)
    (reply : AmSipReply) (rte : Bool)
    (hm1 : req.method ≠ .SUBSCRIBE) (hm2 : req.method ≠ .REFER)
    (hcm : reply.cseq_method = .NOTIFY)
    (h2 : 200 ≤ reply.code) (h3 : reply.code < 300) :
    s.replyFSM req reply rte =
      (if notifyExpire req ≠ 0 ∧ notifyToken req = "active" then
        { sub_state := (setState s.sub_state .SubState_active).1,
          pending_subscribe := s.pending_subscribe,
          decUsages := (setState s.sub_state .SubState_active).2,
          timer_n_removed := true,
          timer_expires_set := some (notifyExpire req),
          updated_remote_tag := false }
      else if notifyExpire req ≠ 0 ∧ notifyToken req = "pending" then
        { sub_state := (setState s.sub_state .SubState_pending).1,
          pending_subscribe := s.pending_subscribe,
          decUsages := (setState s.sub_state .SubState_pending).2,
          timer_n_removed := true,
          timer_expires_set := some (notifyExpire req),
          updated_remote_tag := false }
      else
        { sub_state := (terminate s.sub_state).1,
          pending_subscribe := s.pending_subscribe,
          decUsages := (terminate s.sub_state).2,
          timer_n_removed := false,
          timer_expires_set := none,
          updated_remote_tag := false }) := by
  have hlt : ¬ reply.code < 200 := by omega
  have hsr : ¬ (req.method = .SUBSCRIBE ∨ req.method = .REFER) := by
    rintro (h | h)
    · exact hm1 h
    · exact hm2 h
  have h3' : ¬ 300 ≤ reply.code := by omega
  simp only [SingleSubscription.replyFSM, if_neg hlt, if_neg hsr, hcm,
    notifyExpire, notifyToken]
  simp only [if_neg h3']
  split_ifs <;> rfl

/-- C3 amended, instantiated at a NotifyWait subscription receiving a 2xx
to a NOTIFY carrying `active;expires=600`: it becomes Active, Timer N is
cancelled and `timer_expires` is armed for 600 seconds. -/
theorem C3_amended_witness :
    SingleSubscription.replyFSM
        ⟨.Subscriber, "presence", "", .SubState_notify_wait, 0⟩
        ⟨.NOTIFY, 3, "", "active;expires=600"⟩
        ⟨200, .NOTIFY, "", "", ""⟩ false =
      { sub_state := .SubState_active, pending_subscribe := 0,
        decUsages := 0, timer_n_removed := true,
        timer_expires_set := some 600, updated_remote_tag := false } := by
  have h := C3_amended
      ⟨.Subscriber, "presence", "", .SubState_notify_wait, 0⟩
      ⟨.NOTIFY, 3, "", "active;expires=600"⟩
      ⟨200, .NOTIFY, "", "", ""⟩ false
      (by decide) (by decide) rfl (by decide) (by decide)
  exact h.trans (by decide)

/-- C4: a final reply with code ≥ 300 terminates the subscription iff the
code is in {405, 481, 489, 501}, except that in NotifyWait a reply to a
SUBSCRIBE/REFER of any ≥ 300 code terminates; for every other ≥ 300 code
the state (and the usage counter) is left unchanged, and no timer is
manipulated.  The two situations are a reply to a SUBSCRIBE/REFER and a
reply to a NOTIFY (in any state). -/
theorem C4_failure_codes (s : SingleSubscription) (req : AmSipRequest)
    (reply : AmSipReply) (rte : Bool)
    (h3 : 300 ≤ reply.code)
    (hsit : req.method = .SUBSCRIBE ∨ req.method = .REFER ∨
            reply.cseq_method = .NOTIFY) :
    ((s.replyFSM req reply rte).sub_state =
      (if ((req.method = .SUBSCRIBE ∨ req.method = .REFER) ∧
            s.sub_state = .SubState_notify_wait)
          ∨ reply.code = 405 ∨ reply.code = 481 ∨ reply.code = 489 ∨
            reply.code = 501 then
        (terminate s.sub_state).1
       else s.sub_state))
    ∧ ((s.replyFSM req reply rte).decUsages =
      (if ((req.method = .SUBSCRIBE ∨ req.method = .REFER) ∧
            s.sub_state = .SubState_notify_wait)
          ∨ reply.code = 405 ∨ reply.code = 481 ∨ reply.code = 489 ∨
            reply.code = 501 then
        (terminate s.sub_state).2
       else 0))
    ∧ (s.replyFSM req reply rte).timer_n_removed = false
    ∧ (s.replyFSM req reply rte).timer_expires_set = none := by
  have hlt : ¬ reply.code < 200 := by omega
  by_cases hsr : req.method = .SUBSCRIBE ∨ req.method = .REFER
  · simp only [SingleSubscription.replyFSM, if_neg hlt, if_pos hsr,
      if_pos h3]
    by_cases hnw : s.sub_state = .SubState_notify_wait
    · simp [hnw, hsr]
    · by_cases hc : reply.code = 405 ∨ reply.code = 489 ∨
          reply.code = 481 ∨ reply.code = 501
      · have hc' : reply.code = 405 ∨ reply.code = 481 ∨
            reply.code = 489 ∨ reply.code = 501 := by tauto
        simp [hnw, hc, hc', hsr]
      · have hc' : ¬ (reply.code = 405 ∨ reply.code = 481 ∨
            reply.code = 489 ∨ reply.code = 501) := by tauto
        simp [hnw, hc, hc', hsr]
  · have hnm : reply.cseq_method = .NOTIFY := by tauto
    simp only [SingleSubscription.replyFSM, if_neg hlt, if_neg hsr, hnm,
      if_pos h3]
    by_cases hc : reply.code = 405 ∨ reply.code = 481 ∨
        reply.code = 489 ∨ reply.code = 501
    · simp [hc, hsr]
    · simp [hc, hsr]

/-- C4, instantiated: a 489 reply to a refresh SUBSCRIBE of an Active
subscription terminates it, while a 408 reply leaves it Active. -/
theorem C4_failure_codes_witness :
    ((SingleSubscription.replyFSM
        ⟨.Subscriber, "presence", "", .SubState_active, 1⟩
        ⟨.SUBSCRIBE, 2, "presence", ""⟩
        ⟨489, .SUBSCRIBE, "", "", ""⟩ false).sub_state =
      .SubState_terminated)
    ∧ ((SingleSubscription.replyFSM
        ⟨.Subscriber, "presence", "", .SubState_active, 1⟩
        ⟨.SUBSCRIBE, 2, "presence", ""⟩
        ⟨408, .SUBSCRIBE, "", "", ""⟩ false).sub_state =
      .SubState_active) := by
  have h1 := C4_failure_codes
      ⟨.Subscriber, "presence", "", .SubState_active, 1⟩
      ⟨.SUBSCRIBE, 2, "presence", ""⟩
      ⟨489, .SUBSCRIBE, "", "", ""⟩ false (by decide) (Or.inl rfl)
  have h2 := C4_failure_codes
      ⟨.Subscriber, "presence", "", .SubState_active, 1⟩
      ⟨.SUBSCRIBE, 2, "presence", ""⟩
      ⟨408, .SUBSCRIBE, "", "", ""⟩ false (by decide) (Or.inl rfl)
  exact ⟨h1.1.trans (by decide), h2.1.trans (by decide)⟩

/-- C5: for every 2xx final reply to a SUBSCRIBE or REFER transaction:
when the Expires header parses to E > 0 (after stripping parameters),
`timer_expires` is armed for E seconds; when E = 0 nothing is done; when
the originating method is SUBSCRIBE and the Expires header is absent or
unparseable the subscription is terminated; and `pending_subscribe` is
decremented in all of these cases. -/
theorem C5_2xx_subscribe (s : SingleSubscription) (req : AmSipRequest)
    (reply : AmSipReply) (rte : Bool)
    (hm : req.method = .SUBSCRIBE ∨ req.method = .REFER)
    (hcm : reply.cseq_method = req.method)
    (h2 : 200 ≤ reply.code) (h3 : reply.code < 300) :
    ((s.replyFSM req reply rte).timer_expires_set =
      (match replyExpires reply with
       | some v => if v ≠ 0 then some v else none
       | none => none))
    ∧ ((s.replyFSM req reply rte).sub_state =
      (if replyExpires reply = none ∧ req.method = .SUBSCRIBE then
        (terminate s.sub_state).1
       else s.sub_state))
    ∧ ((s.replyFSM req reply rte).decUsages =
      (if replyExpires reply = none ∧ req.method = .SUBSCRIBE then
        (terminate s.sub_state).2
       else 0))
    ∧ (s.replyFSM req reply rte).pending_subscribe =
        s.pending_subscribe - 1 := by
  have hlt : ¬ reply.code < 200 := by omega
  have h3' : ¬ 300 ≤ reply.code := by omega
  simp only [SingleSubscription.replyFSM, if_neg hlt, if_pos hm,
    if_neg h3', replyExpires, hcm]
  rcases hm with h | h <;>
  · simp only [h]
    cases he : (if strip_header_params reply.expires_hdr = "" then none
        else str2int (strip_header_params reply.expires_hdr)) with
    | none => cases rte <;> simp [he]
    | some v =>
      by_cases hv : v = 0
      · cases rte <;> simp [he, hv]
      · cases rte <;> simp [he, hv]

/-- C5, instantiated: a 200 to SUBSCRIBE with `Expires: 3600` arms
`timer_expires` for 3600 seconds and returns `pending_subscribe` to 0,
while a 200 to SUBSCRIBE with no Expires header terminates. -/
theorem C5_2xx_subscribe_witness :
    ((SingleSubscription.replyFSM
        ⟨.Subscriber, "presence", "", .SubState_notify_wait, 1⟩
        ⟨.SUBSCRIBE, 2, "presence", ""⟩
        ⟨200, .SUBSCRIBE, "3600", "remote-tag", ""⟩ true).timer_expires_set
      = some 3600)
    ∧ ((SingleSubscription.replyFSM
        ⟨.Subscriber, "presence", "", .SubState_notify_wait, 1⟩
        ⟨.SUBSCRIBE, 2, "presence", ""⟩
        ⟨200, .SUBSCRIBE, "", "remote-tag", ""⟩ true).sub_state
      = .SubState_terminated)
    ∧ ((SingleSubscription.replyFSM
        ⟨.Subscriber, "presence", "", .SubState_notify_wait, 1⟩
        ⟨.SUBSCRIBE, 2, "presence", ""⟩
        ⟨200, .SUBSCRIBE, "3600", "remote-tag", ""⟩ true).pending_subscribe
      = 0) := by
  have h1 := C5_2xx_subscribe
      ⟨.Subscriber, "presence", "", .SubState_notify_wait, 1⟩
      ⟨.SUBSCRIBE, 2, "presence", ""⟩
      ⟨200, .SUBSCRIBE, "3600", "remote-tag", ""⟩ true
      (Or.inl rfl) rfl (by decide) (by decide)
  have h2 := C5_2xx_subscribe
      ⟨.Subscriber, "presence", "", .SubState_notify_wait, 1⟩
      ⟨.SUBSCRIBE, 2, "presence", ""⟩
      ⟨200, .SUBSCRIBE, "", "remote-tag", ""⟩ true
      (Or.inl rfl) rfl (by decide) (by decide)
  refine ⟨h1.1.trans (by decide), h2.2.1.trans (by decide), ?_⟩
  have h3 := h1.2.2.2
  simpa using h3

/-- A subscription built by `makeSubscription` always starts in Init. -/
theorem makeSubscription_init (req : AmSipRequest) (uac : Bool)
    (sub : SingleSubscription) (h : makeSubscription req uac = some sub) :
    sub.sub_state = .SubState_init := by
  unfold makeSubscription at h
  split_ifs at h <;> simp_all <;> simp [← h]

/-- `createSubscription` either fails with a single 501 reply and leaves
the set untouched, or appends a fresh Init subscription and increments the
usage counter once. -/
theorem createSubscription_cases (ss : AmSipSubscription)
    (req : AmSipRequest) (uac : Bool) :
    (ss.createSubscription req uac =
      (none, ss, { replies := [501], incUsages := 0, decUsages := 0 }))
    ∨ (∃ sub, makeSubscription req uac = some sub
        ∧ sub.sub_state = .SubState_init
        ∧ ss.createSubscription req uac =
          (some ss.subs.length, { ss with subs := ss.subs ++ [sub] },
           { replies := [], incUsages := 1, decUsages := 0 })) := by
  unfold AmSipSubscription.createSubscription
  cases h : makeSubscription req uac with
  | none => left; simp [noEffects]
  | some sub =>
    right
    exact ⟨sub, rfl, makeSubscription_init req uac sub h, by simp [noEffects]⟩

/-- Shape of every `matchSubscription` outcome: the CSeq maps are never
touched, the usage counter is never decremented, and either no index is
returned (with the set at most shrunk by a reaped terminated subscription
and no usage increment), or the returned index denotes a live
(non-terminated) subscription of the resulting set. -/
theorem matchSubscription_shape (ss : AmSipSubscription)
    (req : AmSipRequest) (uac : Bool) :
    ((ss.matchSubscription req uac).2.1.uas_cseq_map = ss.uas_cseq_map)
    ∧ ((ss.matchSubscription req uac).2.2.decUsages = 0)
    ∧ (((ss.matchSubscription req uac).1 = none
        ∧ List.Sublist (ss.matchSubscription req uac).2.1.subs ss.subs
        ∧ (ss.matchSubscription req uac).2.2.incUsages = 0)
      ∨ (∃ i sub, (ss.matchSubscription req uac).1 = some i
          ∧ (ss.matchSubscription req uac).2.1.subs.get? i = some sub
          ∧ sub.sub_state ≠ .SubState_terminated)) := by
  rcases hm : ss.matchSubscription req uac with ⟨m1, rest⟩
  rcases rest with ⟨ss1, eff1⟩
  simp only [AmSipSubscription.matchSubscription] at hm
  split at hm
  · rcases createSubscription_cases ss req uac with hc | ⟨sub, hmk, hinit, hc⟩
    · rw [hc] at hm
      cases hm
      simp
    · rw [hc] at hm
      cases hm
      refine ⟨rfl, rfl, Or.inr ⟨ss.subs.length, sub, rfl, ?_, by simp [hinit]⟩⟩
      simp [List.get?_eq_getElem?, List.getElem?_concat_length]
  · split at hm
    · cases hm
      simp [noEffects]
    · split at hm
      · split at hm
        · split at hm
          · split at hm
            · rcases createSubscription_cases
                  { ss with subs := ss.subs.eraseIdx _ } req uac with hc | hc
              · rw [hc] at hm
                cases hm
                exact ⟨rfl, rfl, Or.inl ⟨rfl, by
                  simpa using List.eraseIdx_sublist ss.subs _, rfl⟩⟩
              · rcases hc with ⟨sub, hmk, hinit, hc⟩
                rw [hc] at hm
                cases hm
                refine ⟨rfl, rfl, Or.inr ⟨_, sub, rfl, ?_, by simp [hinit]⟩⟩
                simp [List.get?_eq_getElem?, List.getElem?_concat_length]
            · cases hm
              exact ⟨rfl, rfl, Or.inl ⟨rfl, by
                simpa using List.eraseIdx_sublist ss.subs _, rfl⟩⟩
          · rename_i sub hget hterm
            cases hm
            exact ⟨rfl, rfl, Or.inr ⟨_, sub, rfl, hget, hterm⟩⟩
        · cases hm
          simp [noEffects]
      · split at hm
        · rcases createSubscription_cases ss req uac with hc | ⟨sub, hmk, hinit, hc⟩
          · rw [hc] at hm
            cases hm
            simp
          · rw [hc] at hm
            cases hm
            refine ⟨rfl, rfl, Or.inr ⟨ss.subs.length, sub, rfl, ?_, by simp [hinit]⟩⟩
            simp [List.get?_eq_getElem?, List.getElem?_concat_length]
        · cases hm
          simp [noEffects]

/-- When the 481 guard fires, matching returned the end sentinel. -/
theorem matchSubscription_failed (ss : AmSipSubscription)
    (req : AmSipRequest) (h : ss.uasMatchFailed req = true) :
    (ss.matchSubscription req false).1 = none := by
  rcases (matchSubscription_shape ss req false).2.2 with ⟨h1, _, _⟩ |
      ⟨i, sub, hi, hget, hterm⟩
  · exact h1
  · exfalso
    simp only [AmSipSubscription.uasMatchFailed] at h
    simp only [hi, hget, beq_iff_eq] at h
    exact hterm h

/-- `AmSipSubscription::onRequestIn` on the 481 path: false is returned,
481 is appended to the replies, and the set is whatever matching left. -/
theorem onRequestIn_failed (ss : AmSipSubscription) (req : AmSipRequest)
    (rand : Nat) (h : ss.uasMatchFailed req = true) :
    ss.onRequestIn req rand =
      (false, (ss.matchSubscription req false).2.1,
       { (ss.matchSubscription req false).2.2 with
         replies :=
           (ss.matchSubscription req false).2.2.replies ++ [481] }) := by
  have hn := matchSubscription_failed ss req h
  simp only [AmSipSubscription.onRequestIn]
  rw [hn]

/-- `AmSipSubscription::onRequestIn` on the non-481 path records the
request's CSeq in `uas_cseq_map` before forwarding to the subscription. -/
theorem onRequestIn_passed (ss : AmSipSubscription) (req : AmSipRequest)
    (rand : Nat) (h : ss.uasMatchFailed req = false) :
    ∃ i, (ss.matchSubscription req false).1 = some i
      ∧ (ss.onRequestIn req rand).2.1.uas_cseq_map =
          (req.cseq, i) ::
            (ss.matchSubscription req false).2.1.uas_cseq_map := by
  simp only [AmSipSubscription.uasMatchFailed] at h
  cases hi : (ss.matchSubscription req false).1 with
  | none => simp [hi] at h
  | some i =>
    cases hget : (ss.matchSubscription req false).2.1.subs.get? i with
    | none =>
      rw [List.get?_eq_getElem?] at hget
      simp [hi, hget] at h
    | some sub =>
      simp only [hi, hget, beq_eq_false_iff_ne, ne_eq] at h
      refine ⟨i, rfl, ?_⟩
      simp only [AmSipSubscription.onRequestIn]
      simp only [hi, hget, if_neg h]

/-- C7 as stated is false in its "set unchanged" part: an inbound NOTIFY
matching a terminated subscription is answered 481 with `false` returned
and no new subscription created, but the terminated subscription is reaped
during matching, so the set changes (here from one element to none). -/
theorem C7_cex :
    ((AmSipSubscription.onRequestIn
        ⟨"tt", [⟨.Subscriber, "presence", "x", .SubState_terminated, 0⟩],
         [], []⟩
        ⟨.NOTIFY, 3, "presence;id=x", ""⟩ 0).1 = false)
    ∧ ((AmSipSubscription.onRequestIn
        ⟨"tt", [⟨.Subscriber, "presence", "x", .SubState_terminated, 0⟩],
         [], []⟩
        ⟨.NOTIFY, 3, "presence;id=x", ""⟩ 0).2.2.replies = [481])
    ∧ ((AmSipSubscription.onRequestIn
        ⟨"tt", [⟨.Subscriber, "presence", "x", .SubState_terminated, 0⟩],
         [], []⟩
        ⟨.NOTIFY, 3, "presence;id=x", ""⟩ 0).2.1.subs = [])
    ∧ [⟨.Subscriber, "presence", "x", .SubState_terminated, 0⟩] ≠
        ([] : List SingleSubscription) := by
  decide

/-- C7 (amended): whenever matching yields no subscription or a
terminated one, the Subscription Set replies 481 (as the last reply sent),
returns false, creates no subscription (no usage-counter change either
way), and leaves the CSeq map untouched; the set itself is however only a
sublist of the original one, since a matched terminated subscription is
reaped during matching. -/
theorem C7_amended (ss : AmSipSubscription) (req : AmSipRequest)
    (rand : Nat) (h : ss.uasMatchFailed req = true) :
    ((ss.onRequestIn req rand).1 = false)
    ∧ ((ss.onRequestIn req rand).2.2.replies.getLast? = some 481)
    ∧ ((ss.onRequestIn req rand).2.2.incUsages = 0)
    ∧ ((ss.onRequestIn req rand).2.2.decUsages = 0)
    ∧ List.Sublist (ss.onRequestIn req rand).2.1.subs ss.subs
    ∧ ((ss.onRequestIn req rand).2.1.uas_cseq_map = ss.uas_cseq_map) := by
  have hr := onRequestIn_failed ss req rand h
  have hn := matchSubscription_failed ss req h
  rcases matchSubscription_shape ss req false with ⟨hmap, hdec, hor⟩
  rcases hor with ⟨_, hsub, hinc⟩ | ⟨i, sub, hi, _, _⟩
  · rw [hr]
    refine ⟨rfl, ?_, hinc, hdec, hsub, hmap⟩
    simp
  · rw [hn] at hi
    cases hi

/-- C7 amended, instantiated at an inbound NOTIFY on an empty set. -/
theorem C7_amended_witness :
    ((AmSipSubscription.onRequestIn ⟨"t", [], [], []⟩
        ⟨.NOTIFY, 3, "presence;id=x", ""⟩ 0).1 = false)
    ∧ ((AmSipSubscription.onRequestIn ⟨"t", [], [], []⟩
        ⟨.NOTIFY, 3, "presence;id=x", ""⟩ 0).2.2.replies.getLast? =
          some 481)
    ∧ ((AmSipSubscription.onRequestIn ⟨"t", [], [], []⟩
        ⟨.NOTIFY, 3, "presence;id=x", ""⟩ 0).2.2.incUsages = 0)
    ∧ ((AmSipSubscription.onRequestIn ⟨"t", [], [], []⟩
        ⟨.NOTIFY, 3, "presence;id=x", ""⟩ 0).2.2.decUsages = 0)
    ∧ List.Sublist (AmSipSubscription.onRequestIn ⟨"t", [], [], []⟩
        ⟨.NOTIFY, 3, "presence;id=x", ""⟩ 0).2.1.subs []
    ∧ ((AmSipSubscription.onRequestIn ⟨"t", [], [], []⟩
        ⟨.NOTIFY, 3, "presence;id=x", ""⟩ 0).2.1.uas_cseq_map = []) :=
  C7_amended ⟨"t", [], [], []⟩ ⟨.NOTIFY, 3, "presence;id=x", ""⟩ 0
    (by decide)

/-- C8 as stated is false: an inbound SUBSCRIBE matching a subscription
that rejects it with 500 (overlapping refresh) makes `onRequestIn` return
false, yet the request's CSeq has been recorded in `uas_cseq_map` (the map
entry is made before the subscription-level admission check). -/
theorem C8_cex :
    ((AmSipSubscription.onRequestIn
        ⟨"t", [⟨.Notifier, "presence", "", .SubState_notify_wait, 1⟩],
         [], []⟩
        ⟨.SUBSCRIBE, 5, "presence", ""⟩ 0).1 = false)
    ∧ (keyMem 5 (AmSipSubscription.onRequestIn
        ⟨"t", [⟨.Notifier, "presence", "", .SubState_notify_wait, 1⟩],
         [], []⟩
        ⟨.SUBSCRIBE, 5, "presence", ""⟩ 0).2.1.uas_cseq_map = true) := by
  decide

/-- C8 (amended): after `AmSipSubscription::onRequestIn` on a CSeq not yet
tracked, an entry for the request's CSeq exists in `uas_cseq_map` iff
matching succeeded (the 481 path was not taken) — not iff the request was
accepted: a request the subscription itself rejects locally with 500 is
still tracked, since the map entry is recorded before forwarding. -/
theorem C8_amended (ss : AmSipSubscription) (req : AmSipRequest)
    (rand : Nat)
    (hfresh : keyMem req.cseq ss.uas_cseq_map = false) :
    keyMem req.cseq (ss.onRequestIn req rand).2.1.uas_cseq_map =
      !(ss.uasMatchFailed req) := by
  cases hg : ss.uasMatchFailed req with
  | true =>
    have hr := onRequestIn_failed ss req rand hg
    rcases matchSubscription_shape ss req false with ⟨hmap, _, _⟩
    rw [hr]
    simpa [hmap] using hfresh
  | false =>
    rcases onRequestIn_passed ss req rand hg with ⟨i, hi, hm⟩
    rw [hm]
    simp [keyMem]

/-- C8 amended, instantiated at the 500-rejected overlapping SUBSCRIBE:
matching succeeded, so the CSeq is tracked although the request was
rejected. -/
theorem C8_amended_witness :
    keyMem 5 (AmSipSubscription.onRequestIn
        ⟨"t", [⟨.Notifier, "presence", "", .SubState_notify_wait, 1⟩],
         [], []⟩
        ⟨.SUBSCRIBE, 5, "presence", ""⟩ 0).2.1.uas_cseq_map =
      !(AmSipSubscription.uasMatchFailed
        ⟨"t", [⟨.Notifier, "presence", "", .SubState_notify_wait, 1⟩],
         [], []⟩
        ⟨.SUBSCRIBE, 5, "presence", ""⟩) :=
  C8_amended
    ⟨"t", [⟨.Notifier, "presence", "", .SubState_notify_wait, 1⟩], [], []⟩
    ⟨.SUBSCRIBE, 5, "presence", ""⟩ 0 (by decide)

/-- C9: a SUBSCRIBE with a missing (or empty) Event header is not rejected
at creation: `makeSubscription` yields a subscription whose event string
and id are both empty and in state Init, `createSubscription` increments
the dialog usage counter once and appends it to the set; and creation
fails with a 501 reply exactly for the methods other than SUBSCRIBE and
REFER, leaving the set and the usage counter unchanged. -/
theorem C9_empty_event (ss : AmSipSubscription) (req : AmSipRequest)
    (uac : Bool)
    (hm : req.method = .SUBSCRIBE) (he : req.event_hdr = "") :
    (makeSubscription req uac =
      some { role := if uac then .Subscriber else .Notifier, event := "",
             id := "", sub_state := .SubState_init,
             pending_subscribe := 0 })
    ∧ ((ss.createSubscription req uac).1 = some ss.subs.length
       ∧ (ss.createSubscription req uac).2.1.subs =
           ss.subs ++ [{ role := if uac then .Subscriber else .Notifier,
                         event := "", id := "",
                         sub_state := .SubState_init,
                         pending_subscribe := 0 }]
       ∧ (ss.createSubscription req uac).2.2.incUsages = 1
       ∧ (ss.createSubscription req uac).2.2.replies = [])
    ∧ (∀ (req2 : AmSipRequest) (uac2 : Bool),
        makeSubscription req2 uac2 = none ↔
          (req2.method ≠ .SUBSCRIBE ∧ req2.method ≠ .REFER))
    ∧ (∀ (req2 : AmSipRequest) (uac2 : Bool),
        req2.method ≠ .SUBSCRIBE → req2.method ≠ .REFER →
          (ss.createSubscription req2 uac2).1 = none
          ∧ (ss.createSubscription req2 uac2).2.1 = ss
          ∧ (ss.createSubscription req2 uac2).2.2.replies = [501]
          ∧ (ss.createSubscription req2 uac2).2.2.incUsages = 0) := by
  have hmk : makeSubscription req uac =
      some { role := if uac then .Subscriber else .Notifier, event := "",
             id := "", sub_state := .SubState_init,
             pending_subscribe := 0 } := by
    simp only [makeSubscription, hm, he, if_pos]
    cases uac <;> simp <;> decide
  refine ⟨hmk, ?_, ?_, ?_⟩
  · simp [AmSipSubscription.createSubscription, hmk, noEffects]
  · intro req2 uac2
    unfold makeSubscription
    cases req2.method <;> simp
  · intro req2 uac2 h1 h2
    have hmk2 : makeSubscription req2 uac2 = none := by
      unfold makeSubscription
      cases hmm : req2.method <;> simp_all
    simp [AmSipSubscription.createSubscription, hmk2, noEffects]

/-- C9, instantiated on a UAS SUBSCRIBE with an absent Event header and on
a NOTIFY creation attempt. -/
theorem C9_empty_event_witness :
    (makeSubscription ⟨.SUBSCRIBE, 1, "", ""⟩ false =
      some { role := .Notifier, event := "", id := "",
             sub_state := .SubState_init, pending_subscribe := 0 })
    ∧ ((AmSipSubscription.createSubscription ⟨"", [], [], []⟩
          ⟨.SUBSCRIBE, 1, "", ""⟩ false).2.2.incUsages = 1)
    ∧ ((AmSipSubscription.createSubscription ⟨"", [], [], []⟩
          ⟨.NOTIFY, 1, "", ""⟩ false).2.2.replies = [501]) := by
  have h := C9_empty_event ⟨"", [], [], []⟩ ⟨.SUBSCRIBE, 1, "", ""⟩ false
      rfl rfl
  refine ⟨h.1.trans (by decide), h.2.1.2.2.1, ?_⟩
  exact (h.2.2.2 ⟨.NOTIFY, 1, "", ""⟩ false (by decide) (by decide)).2.2.1
